import Mathlib

/-
  Verification development for the OneBlood matching-and-dispatch engine.

  The definitions below are a shallow embedding of the JavaScript sources:
  - backend/src/services/aiMatcher.js   (scoring, retrieval, assignment)
  - backend/src/models/Donor.js, BloodRequest.js, Hospital.js (data model)
  - the socket service (accept handler, connection registry)
  - backend/src/routes/requests.js      (request creation, HTTP accept)

  Conventions: timestamps are rational milliseconds since the epoch
  (a fixed "now" is passed explicitly where the source calls Date.now or
  new Date); distances are rational meters; the geolib distance call and
  the MongoDB geo query are modelled by an explicit distance function
  argument, and the donor collection query by a filter over an in-memory
  donor list wrapped in Except to model query failure.
-/

namespace OneBlood

/-! ## Data model -/

inductive BloodType
  | OPos | ONeg | APos | ANeg | BPos | BNeg | ABPos | ABNeg
deriving DecidableEq, Fintype

inductive Urgency
  | critical | urgent | normal
deriving DecidableEq

inductive RequestStatus
  | pending | accepted | completed | cancelled
deriving DecidableEq

inductive DonorReply
  | pending | accepted | declined
deriving DecidableEq

/-- GeoJSON Point: coordinates array is stored as (longitude, latitude). -/
structure GeoPoint where
  lng : ℚ
  lat : ℚ
deriving DecidableEq

/-- One entry of Donor.responseHistory. responseTime is in minutes and may
be absent (the mongoose field is optional). -/
structure ResponseEntry where
  requestId : String
  responded : Bool
  responseTime : Option ℚ
deriving DecidableEq

/-- The Donor fields read by the matching engine; registration, QR,
health-metric and presentation fields are not modelled. -/
structure Donor where
  id : String
  bloodType : BloodType
  location : GeoPoint
  available : Bool
  lastDonation : Option ℚ
  totalDonations : ℕ
  responseHistory : List ResponseEntry
deriving DecidableEq

/-- One entry of BloodRequest.matchedDonors. -/
structure MatchedDonor where
  donorId : String
  matchScore : ℚ
  contactedAt : Option ℚ
  response : DonorReply
deriving DecidableEq

/-- The BloodRequest fields read by the engine; requester contact and
patient-condition fields are not modelled. -/
structure BloodRequest where
  id : String
  location : GeoPoint
  bloodType : BloodType
  urgency : Urgency
  status : RequestStatus
  hospitalId : Option String
  acceptedHospitals : List String
  matchedDonors : List MatchedDonor
  expiresAt : ℚ
deriving DecidableEq

/-! ## Compatibility and scoring engine (aiMatcher.js) -/

/-- Blood type compatibility matrix (aiMatcher.js constructor). -/
def bloodCompatibility : BloodType → List BloodType
  | .OPos => [.OPos, .APos, .BPos, .ABPos]
  | .ONeg => [.OPos, .ONeg, .APos, .ANeg, .BPos, .BNeg, .ABPos, .ABNeg]
  | .APos => [.APos, .ABPos]
  | .ANeg => [.APos, .ANeg, .ABPos, .ABNeg]
  | .BPos => [.BPos, .ABPos]
  | .BNeg => [.BPos, .BNeg, .ABPos, .ABNeg]
  | .ABPos => [.ABPos]
  | .ABNeg => [.ABPos, .ABNeg]

/-- calculateBloodTypeScore(donorBloodType, requestBloodType). -/
def calculateBloodTypeScore (donorBloodType requestBloodType : BloodType) : ℚ :=
  if donorBloodType = requestBloodType then 100
  else if requestBloodType ∈ bloodCompatibility donorBloodType then
    if donorBloodType = .ONeg then 95
    else if donorBloodType = .OPos then 90
    else 85
  else 0

/-- calculateDistanceScore(distance); distance is in meters. -/
def calculateDistanceScore (distance : ℚ) : ℚ :=
  let distanceKm := distance / 1000
  if distanceKm ≤ 5 then 100
  else if distanceKm ≤ 10 then 90
  else if distanceKm ≤ 20 then 70
  else if distanceKm ≤ 30 then 50
  else if distanceKm ≤ 40 then 30
  else 10

/-- Milliseconds in one day (1000 * 60 * 60 * 24). -/
def msPerDay : ℚ := 86400000

/-- calculateAvailabilityScore(donor); the source reads new Date(), here
passed as the explicit timestamp now. -/
def calculateAvailabilityScore (now : ℚ) (donor : Donor) : ℚ :=
  let score : ℚ := 50
  let score :=
    match donor.lastDonation with
    | none => score + 30
    | some lastDonation =>
      let daysSinceLastDonation : ℤ := ⌊(now - lastDonation) / msPerDay⌋
      if daysSinceLastDonation ≥ 90 then score + 25
      else if daysSinceLastDonation ≥ 60 then score + 20
      else if daysSinceLastDonation ≥ 56 then score + 15
      else if daysSinceLastDonation ≥ 30 then score + 10
      else score
  let score :=
    if donor.totalDonations ≥ 10 then score + 15
    else if donor.totalDonations ≥ 5 then score + 10
    else if donor.totalDonations ≥ 1 then score + 5
    else score
  min 100 score

/-- The JavaScript expression (r.responseTime || 30): an absent value
falls back to 30, and so does a stored 0, because 0 is falsy. -/
def entryResponseTime (r : ResponseEntry) : ℚ :=
  match r.responseTime with
  | none => 30
  | some t => if t = 0 then 30 else t

/-- calculateResponseScore(donor); slice(-10) is modelled by dropping all
but the last 10 entries. -/
def calculateResponseScore (donor : Donor) : ℚ :=
  if donor.responseHistory.isEmpty then 50
  else
    let recentResponses := donor.responseHistory.drop (donor.responseHistory.length - 10)
    let totalResponses : ℚ := recentResponses.length
    let positiveResponses : ℚ := (recentResponses.filter (fun r => r.responded)).length
    let responseRate := positiveResponses / totalResponses
    let avgResponseTime := (recentResponses.map entryResponseTime).sum / totalResponses
    let score := responseRate * 70
    let score :=
      if avgResponseTime ≤ 5 then score + 30
      else if avgResponseTime ≤ 10 then score + 25
      else if avgResponseTime ≤ 15 then score + 20
      else if avgResponseTime ≤ 20 then score + 15
      else if avgResponseTime ≤ 30 then score + 10
      else score
    min 100 score

/-- urgencyMultipliers (aiMatcher.js constructor). -/
def urgencyMultiplier : Urgency → ℚ
  | .critical => 13 / 10
  | .urgent => 11 / 10
  | .normal => 1

/-- calculateMatchScore(donor, bloodRequest). The geolib distance call is
the explicit argument getDistance, and the ambient clock is now. -/
def calculateMatchScore (getDistance : GeoPoint → GeoPoint → ℚ) (now : ℚ)
    (donor : Donor) (bloodRequest : BloodRequest) : ℚ :=
  let distance := getDistance donor.location bloodRequest.location
  let totalScore :=
    calculateDistanceScore distance * (4 / 10)
    + calculateBloodTypeScore donor.bloodType bloodRequest.bloodType * (3 / 10)
    + calculateAvailabilityScore now donor * (2 / 10)
    + calculateResponseScore donor * (1 / 10)
  let finalScore := totalScore * urgencyMultiplier bloodRequest.urgency
  min 100 (max 0 finalScore)

/-! ## Spec-side standard ABO/Rh compatibility (for claim C4)

These definitions follow the words of the specification (standard ABO/Rh
rules), independently of the source matrix, so that the source matrix can
be compared against them. -/

inductive ABOGroup
  | O | A | B | AB
deriving DecidableEq

def aboGroup : BloodType → ABOGroup
  | .OPos | .ONeg => .O
  | .APos | .ANeg => .A
  | .BPos | .BNeg => .B
  | .ABPos | .ABNeg => .AB

def rhPositive : BloodType → Bool
  | .OPos | .APos | .BPos | .ABPos => true
  | .ONeg | .ANeg | .BNeg | .ABNeg => false

/-- Modelled from the spec: standard ABO donation rule (O serves every
group, A serves A and AB, B serves B and AB, AB serves AB). -/
def aboCanServe : ABOGroup → ABOGroup → Bool
  | .O, _ => true
  | .A, .A => true
  | .A, .AB => true
  | .B, .B => true
  | .B, .AB => true
  | .AB, .AB => true
  | _, _ => false

/-- Modelled from the spec: standard ABO/Rh compatibility (ABO rule plus:
an Rh-positive donor can only serve an Rh-positive recipient). -/
def standardCompatible (donor recipient : BloodType) : Bool :=
  aboCanServe (aboGroup donor) (aboGroup recipient)
    && (!rhPositive donor || rhPositive recipient)

/-! ## Candidate retrieval (aiMatcher.js findMatchingDonors)

The MongoDB donor query is modelled as a filter over an in-memory donor
list; a failing query is the Except.error case (the JavaScript try/catch
around the await). -/

/-- Search radius in km derived from urgency. -/
def searchRadiusKm (urgency : Urgency) : ℚ :=
  if urgency = .critical then 50 else if urgency = .urgent then 40 else 30

/-- Result cap derived from urgency. -/
def maxDonors (urgency : Urgency) : ℕ :=
  if urgency = .critical then 10 else if urgency = .urgent then 8 else 6

/-- The lastDonation clause of the donor query: lastDonation is null or at
least 56 days before now. -/
def eligibleByLastDonation (now : ℚ) (donor : Donor) : Bool :=
  match donor.lastDonation with
  | none => true
  | some lastDonation => decide (lastDonation ≤ now - 56 * msPerDay)

/-- The donor query filter: within the urgency radius (meters), available,
and donation-eligible. -/
def donorQueryFilter (getDistance : GeoPoint → GeoPoint → ℚ) (now : ℚ)
    (bloodRequest : BloodRequest) (d : Donor) : Bool :=
  decide (getDistance d.location bloodRequest.location
      ≤ searchRadiusKm bloodRequest.urgency * 1000)
    && d.available && eligibleByLastDonation now d

/-- The sort comparator (a, b) => b.matchScore - a.matchScore, as the
descending-order relation it implements. -/
def scoreDescending (a b : Donor × ℚ) : Bool := decide (b.2 ≤ a.2)

/-- findMatchingDonors(bloodRequest): query, score, sort descending,
truncate to the urgency cap; on a query failure return the empty list. -/
def findMatchingDonors (getDistance : GeoPoint → GeoPoint → ℚ)
    (donorStore : Except String (List Donor)) (now : ℚ)
    (bloodRequest : BloodRequest) : List (Donor × ℚ) :=
  match donorStore with
  | .error _ => []
  | .ok donors =>
    let nearbyDonors := donors.filter (donorQueryFilter getDistance now bloodRequest)
    let scoredDonors := nearbyDonors.map
      (fun d => (d, calculateMatchScore getDistance now d bloodRequest))
    (scoredDonors.mergeSort scoreDescending).take (maxDonors bloodRequest.urgency)

/-- POST /api/requests/create: build the request with status pending and
expiresAt now+24h, run the matcher, store the matched donors. -/
def createBloodRequest (getDistance : GeoPoint → GeoPoint → ℚ)
    (donorStore : Except String (List Donor)) (now : ℚ) (newId : String)
    (location : GeoPoint) (bloodType : BloodType) (urgency : Urgency) : BloodRequest :=
  let bloodRequest : BloodRequest :=
    { id := newId, location := location, bloodType := bloodType, urgency := urgency,
      status := .pending, hospitalId := none, acceptedHospitals := [],
      matchedDonors := [], expiresAt := now + 24 * 60 * 60 * 1000 }
  let matchedDonors := findMatchingDonors getDistance donorStore now bloodRequest
  { bloodRequest with
      matchedDonors := matchedDonors.map (fun p =>
        { donorId := p.1.id, matchScore := p.2,
          contactedAt := some now, response := .pending }) }

/-! Concrete reference scenario used by witnesses and counterexamples. -/

/-- A degenerate distance function placing every pair of points at
distance zero; stands in for the geolib adapter on concrete runs. -/
def zeroDistance : GeoPoint → GeoPoint → ℚ := fun _ _ => 0

/-- An available donor who never donated and has no response history. -/
def donorDG : Donor := ⟨"dg", .OPos, ⟨0, 0⟩, true, none, 0, []⟩

/-- A normal-urgency O-positive request. -/
def requestNormalR1 : BloodRequest :=
  ⟨"r1", ⟨0, 0⟩, .OPos, .normal, .pending, none, [], [], 0⟩

/-- A critical-urgency O-positive request. -/
def requestCriticalR2 : BloodRequest :=
  ⟨"r2", ⟨0, 0⟩, .OPos, .critical, .pending, none, [], [], 0⟩

/-! ## Assignment optimizer (aiMatcher.js optimizeDonorAssignment) -/

/-- Integer priority derived from urgency. -/
def urgencyPriority (urgency : Urgency) : ℤ :=
  if urgency = .critical then 3 else if urgency = .urgent then 2 else 1

/-- One entry of the allMatches array built by optimizeDonorAssignment;
the source field named matches is rendered matchList here because that
word is reserved in Lean. -/
structure RequestMatches where
  requestId : String
  priority : ℤ
  matchList : List (Donor × ℚ)
deriving DecidableEq

/-- The sort comparator (a, b) => b.priority - a.priority, as the
descending-order relation it implements. -/
def priorityDescending (a b : RequestMatches) : Bool := decide (b.priority ≤ a.priority)

/-- The allMatches array: per request, its id, priority, and ranked
candidate list from findMatchingDonors. -/
def allRequestMatches (getDistance : GeoPoint → GeoPoint → ℚ)
    (donorStore : Except String (List Donor)) (now : ℚ)
    (requests : List BloodRequest) : List RequestMatches :=
  requests.map (fun r =>
    ⟨r.id, urgencyPriority r.urgency, findMatchingDonors getDistance donorStore now r⟩)

/-- The processing order: allMatches sorted descending by priority
(JavaScript Array.prototype.sort is stable, hence mergeSort). -/
def sortedRequestMatches (getDistance : GeoPoint → GeoPoint → ℚ)
    (donorStore : Except String (List Donor)) (now : ℚ)
    (requests : List BloodRequest) : List RequestMatches :=
  (allRequestMatches getDistance donorStore now requests).mergeSort priorityDescending

/-- The inner loop: the first donor of the ranked list whose id is not
yet a key of the assignments map. -/
def firstUnclaimedDonor (claimedDonors : List String) :
    List (Donor × ℚ) → Option String
  | [] => none
  | p :: rest =>
    if p.1.id ∈ claimedDonors then firstUnclaimedDonor claimedDonors rest
    else some p.1.id

/-- The greedy pass over the sorted request list; claimedDonors are the
keys of the assignments map and claimedRequests the assignedRequests set.
Output pairs are (donorId, requestId) in insertion order. -/
def greedyAssign (claimedDonors claimedRequests : List String) :
    List RequestMatches → List (String × String)
  | [] => []
  | rm :: rest =>
    if rm.requestId ∈ claimedRequests then
      greedyAssign claimedDonors claimedRequests rest
    else
      match firstUnclaimedDonor claimedDonors rm.matchList with
      | none => greedyAssign claimedDonors claimedRequests rest
      | some donorId =>
        (donorId, rm.requestId) ::
          greedyAssign (donorId :: claimedDonors) (rm.requestId :: claimedRequests) rest

/-- optimizeDonorAssignment(requests). -/
def optimizeDonorAssignment (getDistance : GeoPoint → GeoPoint → ℚ)
    (donorStore : Except String (List Donor)) (now : ℚ)
    (requests : List BloodRequest) : List (String × String) :=
  greedyAssign [] [] (sortedRequestMatches getDistance donorStore now requests)

/-! Concrete evaluations shared by the optimizer claims. -/

/-- A second critical O-positive request, for tie-breaking scenarios. -/
def requestCriticalR3 : BloodRequest :=
  ⟨"r3", ⟨0, 0⟩, .OPos, .critical, .pending, none, [], [], 0⟩

/-! ## Spec-side response-history score (for claim C9) -/

/-- Modelled from the spec: the speed bonus determined by the mean
response time. -/
def specSpeedBonus (avgResponseTime : ℚ) : ℚ :=
  if avgResponseTime ≤ 5 then 30
  else if avgResponseTime ≤ 10 then 25
  else if avgResponseTime ≤ 15 then 20
  else if avgResponseTime ≤ 20 then 15
  else if avgResponseTime ≤ 30 then 10
  else 0

/-- Modelled from the spec: a missing response time is counted as 30
minutes for averaging. -/
def specEntryResponseTime (r : ResponseEntry) : ℚ :=
  match r.responseTime with
  | none => 30
  | some t => t

/-- The response-history component exactly as claim C9 words it: rate is
the responded count among the most recent 10 entries divided by 10. -/
def claimResponseScore (donor : Donor) : ℚ :=
  if donor.responseHistory.isEmpty then 50
  else
    let recent := donor.responseHistory.drop (donor.responseHistory.length - 10)
    let rate : ℚ := ((recent.filter (fun r => r.responded)).length : ℚ) / 10
    let avg := (recent.map specEntryResponseTime).sum / (recent.length : ℚ)
    min 100 (rate * 70 + specSpeedBonus avg)

/-- The response-history component as amended: rate divides by the number
of entries actually present among the most recent 10. -/
def specResponseScore (donor : Donor) : ℚ :=
  if donor.responseHistory.isEmpty then 50
  else
    let recent := donor.responseHistory.drop (donor.responseHistory.length - 10)
    let rate : ℚ := ((recent.filter (fun r => r.responded)).length : ℚ) / (recent.length : ℚ)
    let avg := (recent.map specEntryResponseTime).sum / (recent.length : ℚ)
    min 100 (rate * 70 + specSpeedBonus avg)

/-- A donor with a single positive response answered in 5 minutes. -/
def donorD9 : Donor := ⟨"d9", .OPos, ⟨0, 0⟩, true, none, 0, [⟨"rq1", true, some 5⟩]⟩

/-! ## Hospital model and the socket accept handler -/

/-- The statistics block of Hospital (the fields updateStatistics
touches). -/
structure HospitalStatistics where
  totalRequestsHandled : ℕ
  averageResponseTime : ℚ
  successfulMatches : ℕ
deriving DecidableEq

/-- The Hospital fields read by the accept handler; registration,
blood-stock and operating-hours fields are not modelled. -/
structure Hospital where
  id : String
  name : String
  verified : Bool
  statistics : HospitalStatistics
deriving DecidableEq

/-- Hospital.updateStatistics(responseTime, successful). The JavaScript
guard (if responseTime) skips the average update when responseTime is 0. -/
def updateStatistics (h : Hospital) (responseTime : ℚ) (successful : Bool) : Hospital :=
  let totalRequestsHandled := h.statistics.totalRequestsHandled + 1
  let successfulMatches :=
    if successful then h.statistics.successfulMatches + 1
    else h.statistics.successfulMatches
  let averageResponseTime :=
    if responseTime ≠ 0 then
      (h.statistics.averageResponseTime * ((totalRequestsHandled : ℚ) - 1)
        + responseTime) / (totalRequestsHandled : ℚ)
    else h.statistics.averageResponseTime
  { h with statistics := ⟨totalRequestsHandled, averageResponseTime, successfulMatches⟩ }

/-- The socket messages emitted by the accept handler. -/
inductive SocketEmit
  | socketError (message : String)
  | requestAccepted (room : String) (requestId : String) (hospitalName : String)
  | requestAcceptedSuccess (requestId : String)
deriving DecidableEq

/-- The persistent stores the accept handler touches. -/
structure SocketCtx where
  requests : List BloodRequest
  hospitals : List Hospital
deriving DecidableEq

/-- BloodRequest.findById. -/
def findRequestById (store : List BloodRequest) (requestId : String) : Option BloodRequest :=
  store.find? (fun r => r.id = requestId)

/-- Hospital.findById. -/
def findHospitalById (store : List Hospital) (hospitalId : String) : Option Hospital :=
  store.find? (fun h => h.id = hospitalId)

/-- request.save(): replace the stored document with the same id. -/
def saveRequest (store : List BloodRequest) (r : BloodRequest) : List BloodRequest :=
  store.map (fun x => if x.id = r.id then r else x)

/-- hospital.save(). -/
def saveHospital (store : List Hospital) (h : Hospital) : List Hospital :=
  store.map (fun x => if x.id = h.id then h else x)

/-- The socket accept_request handler. It looks up the request; pushes
the hospital, sets hospitalId and status=accepted only when the hospital
is not already in acceptedHospitals; updates hospital statistics when the
hospital exists; then unconditionally emits request_accepted to every
matched donor identity-room and acknowledges. When the hospital lookup
returns null and matchedDonors is nonempty, reading hospital.name throws
inside the notification loop and the surrounding catch emits a generic
error, with the request already saved. -/
def handleAcceptRequest (ctx : SocketCtx) (hospitalId requestId : String) :
    SocketCtx × List SocketEmit :=
  match findRequestById ctx.requests requestId with
  | none => (ctx, [.socketError "Request not found"])
  | some request =>
    let request :=
      if hospitalId ∈ request.acceptedHospitals then request
      else { request with
              acceptedHospitals := request.acceptedHospitals ++ [hospitalId],
              hospitalId := some hospitalId,
              status := .accepted }
    let requests := saveRequest ctx.requests request
    match findHospitalById ctx.hospitals hospitalId with
    | none =>
      if request.matchedDonors.isEmpty then
        ({ ctx with requests := requests }, [.requestAcceptedSuccess requestId])
      else
        ({ ctx with requests := requests }, [.socketError "Failed to accept request"])
    | some hospital =>
      let hospitals := saveHospital ctx.hospitals (updateStatistics hospital 15 true)
      ({ requests := requests, hospitals := hospitals },
        request.matchedDonors.map (fun md =>
          SocketEmit.requestAccepted ("donor_" ++ md.donorId) requestId hospital.name)
        ++ [.requestAcceptedSuccess requestId])

/-! Concrete accept-handler scenario. -/

/-- A verified hospital. -/
def hospitalH1 : Hospital := ⟨"h1", "City Hospital", true, ⟨0, 0, 0⟩⟩

/-- A pending request with one matched donor and no accepting hospital
yet. -/
def requestPendingRP : BloodRequest :=
  ⟨"r1", ⟨0, 0⟩, .OPos, .normal, .pending, none, [], [⟨"d1", 0, none, .pending⟩], 0⟩

/-- An already-accepted request: hospital h1 appears in
acceptedHospitals. -/
def requestAcceptedRA : BloodRequest :=
  ⟨"r1", ⟨0, 0⟩, .OPos, .normal, .accepted, some "h1", ["h1"],
    [⟨"d1", 0, none, .pending⟩], 0⟩

/-- A completed request with no accepting hospital recorded. -/
def requestCompletedRC : BloodRequest :=
  ⟨"r9", ⟨0, 0⟩, .OPos, .normal, .completed, none, [], [], 0⟩

/-- The store state for the repeat-accept scenario. -/
def ctxRepeatAccept : SocketCtx := ⟨[requestPendingRP], [hospitalH1]⟩

/-- The store state for the completed-request scenario. -/
def ctxCompletedAccept : SocketCtx := ⟨[requestCompletedRC], [hospitalH1]⟩

/-! ## Connection registry (socket service)

connectedHospitals and connectedDonors are plain Maps from identity to
socket id; connect does map.set, disconnect does map.delete keyed by the
identity of the disconnecting socket. The liveSockets component is the
environment ground truth: the set of sockets currently open, which the
code itself does not track. -/

inductive ActorRole
  | hospital | donor
deriving DecidableEq

/-- A connection lifecycle event: a socket of the given actor opens or
closes; handle is the socket id. -/
inductive ConnEvent
  | connected (role : ActorRole) (id handle : String)
  | disconnected (role : ActorRole) (id handle : String)
deriving DecidableEq

/-- Map.get on an association list. -/
def mapGet : List (String × String) → String → Option String
  | [], _ => none
  | e :: rest, key => if e.1 = key then some e.2 else mapGet rest key

/-- Map.set: the new binding replaces any previous binding of the key. -/
def mapSet (m : List (String × String)) (key value : String) :
    List (String × String) :=
  (key, value) :: m.filter (fun e => e.1 ≠ key)

/-- Map.delete. -/
def mapDelete (m : List (String × String)) (key : String) :
    List (String × String) :=
  m.filter (fun e => e.1 ≠ key)

structure RegistryState where
  connectedHospitals : List (String × String)
  connectedDonors : List (String × String)
  liveSockets : List (ActorRole × String × String)
deriving DecidableEq

/-- handleHospitalConnection / handleDonorConnection store the
connection under the identity; handleDisconnection deletes the entry for
the identity of whichever socket closed. -/
def stepRegistry (s : RegistryState) : ConnEvent → RegistryState
  | .connected .hospital id handle =>
    { s with connectedHospitals := mapSet s.connectedHospitals id handle,
             liveSockets := (.hospital, id, handle) :: s.liveSockets }
  | .connected .donor id handle =>
    { s with connectedDonors := mapSet s.connectedDonors id handle,
             liveSockets := (.donor, id, handle) :: s.liveSockets }
  | .disconnected .hospital id handle =>
    { s with connectedHospitals := mapDelete s.connectedHospitals id,
             liveSockets := s.liveSockets.filter
               (fun e => e ≠ (.hospital, id, handle)) }
  | .disconnected .donor id handle =>
    { s with connectedDonors := mapDelete s.connectedDonors id,
             liveSockets := s.liveSockets.filter
               (fun e => e ≠ (.donor, id, handle)) }

def initialRegistry : RegistryState := ⟨[], [], []⟩

def runRegistry : RegistryState → List ConnEvent → RegistryState
  | s, [] => s
  | s, e :: rest => runRegistry (stepRegistry s e) rest

/-- The identity map of the given role. -/
def identityMap (role : ActorRole) (s : RegistryState) : List (String × String) :=
  match role with
  | .hospital => s.connectedHospitals
  | .donor => s.connectedDonors

/-- The handles of the live connections of one identity. -/
def liveHandles (s : RegistryState) (role : ActorRole) (id : String) : List String :=
  s.liveSockets.filterMap
    (fun e => if e.1 = role ∧ e.2.1 = id then some e.2.2 else none)

/-- The handle of the most recent connect event of an identity in a
trace, threading an accumulator. -/
def mostRecentConnectAux (role : ActorRole) (id : String) (acc : Option String) :
    List ConnEvent → Option String
  | [] => acc
  | .connected r i h :: rest =>
    mostRecentConnectAux role id (if r = role ∧ i = id then some h else acc) rest
  | .disconnected _ _ _ :: rest => mostRecentConnectAux role id acc rest

def mostRecentConnect (role : ActorRole) (id : String)
    (events : List ConnEvent) : Option String :=
  mostRecentConnectAux role id none events

/-- The trace in which a reconnect is followed by the disconnect of the
superseded socket. -/
def staleDisconnectTrace : List ConnEvent :=
  [.connected .donor "d" "s1", .connected .donor "d" "s2",
   .disconnected .donor "d" "s1"]

/-! ## Theorems -/

/-! ## Claim C3 -/

/-- C3: for every donor and request, calculateMatchScore returns a value
in the closed interval 0..100, and two evaluations with identical donor,
request and the same fixed now return the same value. -/
theorem calculateMatchScore_range_deterministic
    (getDistance : GeoPoint → GeoPoint → ℚ) (now : ℚ)
    (donor : Donor) (bloodRequest : BloodRequest) :
    0 ≤ calculateMatchScore getDistance now donor bloodRequest
    ∧ calculateMatchScore getDistance now donor bloodRequest ≤ 100
    ∧ ∀ d r, d = donor → r = bloodRequest →
        calculateMatchScore getDistance now d r
          = calculateMatchScore getDistance now donor bloodRequest := by
  refine ⟨?_, ?_, ?_⟩
  · exact le_min (by norm_num) (le_max_left 0 _)
  · exact min_le_left 100 _
  · intro d r hd hr
    rw [hd, hr]

/-- Witness for C3 at a concrete donor and request. -/
theorem calculateMatchScore_range_deterministic_witness :
    let g : GeoPoint → GeoPoint → ℚ := fun _ _ => 0
    let d : Donor := ⟨"d1", .OPos, ⟨0, 0⟩, true, none, 0, []⟩
    let r : BloodRequest := ⟨"r1", ⟨0, 0⟩, .OPos, .normal, .pending, none, [], [], 0⟩
    0 ≤ calculateMatchScore g 0 d r
    ∧ calculateMatchScore g 0 d r ≤ 100
    ∧ calculateMatchScore g 0 d r = calculateMatchScore g 0 d r := by
  intro g d r
  exact ⟨(calculateMatchScore_range_deterministic g 0 d r).1,
    (calculateMatchScore_range_deterministic g 0 d r).2.1,
    (calculateMatchScore_range_deterministic g 0 d r).2.2 d r rfl rfl⟩

/-! ## Claim C4 -/

/-- C4: the compatibility component is 100 on an exact match; otherwise,
whenever the donor type can serve the requested type under the standard
ABO/Rh table, it is 95 for an O-negative donor, 90 for an O-positive
donor and 85 for any other compatible donor; and it is 0 on every
incompatible pair (in particular donor A-positive against a request for
B-positive). -/
theorem calculateBloodTypeScore_matches_standard_table :
    (∀ d r : BloodType,
      calculateBloodTypeScore d r =
        if d = r then 100
        else if standardCompatible d r = true then
          if d = .ONeg then 95 else if d = .OPos then 90 else 85
        else 0)
    ∧ calculateBloodTypeScore .APos .BPos = 0 := by
  constructor
  · decide
  · decide

/-! Small evaluation lemmas for mergeSort on short lists. -/

theorem mergeSort_nil {α : Type} (le : α → α → Bool) :
    List.mergeSort ([] : List α) le = [] := by
  unfold List.mergeSort
  rfl

theorem mergeSort_single {α : Type} (le : α → α → Bool) (a : α) :
    List.mergeSort [a] le = [a] := by
  unfold List.mergeSort
  rfl

theorem mergeSort_pair {α : Type} (le : α → α → Bool) (a b : α) :
    List.mergeSort [a, b] le = if le a b then [a, b] else [b, a] := by
  unfold List.mergeSort
  simp [List.splitInTwo, List.merge]

/-! ## Claim C5 -/

/-- C5: candidate retrieval returns a list sorted in descending order of
match score, of length at most 10 for critical, 8 for urgent and 6 for
normal urgency, in which every donor is available, donation-eligible by
the 56-day rule, and within the urgency-derived search radius
(50km/40km/30km). -/
theorem findMatchingDonors_sorted_capped_eligible
    (getDistance : GeoPoint → GeoPoint → ℚ)
    (donorStore : Except String (List Donor)) (now : ℚ)
    (bloodRequest : BloodRequest) :
    (findMatchingDonors getDistance donorStore now bloodRequest).Pairwise
        (fun a b => b.2 ≤ a.2)
    ∧ (findMatchingDonors getDistance donorStore now bloodRequest).length
        ≤ maxDonors bloodRequest.urgency
    ∧ ∀ p ∈ findMatchingDonors getDistance donorStore now bloodRequest,
        p.1.available = true
        ∧ eligibleByLastDonation now p.1 = true
        ∧ getDistance p.1.location bloodRequest.location
            ≤ searchRadiusKm bloodRequest.urgency * 1000 := by
  match donorStore with
  | .error msg =>
    refine ⟨?_, ?_, ?_⟩ <;> simp [findMatchingDonors]
  | .ok donors =>
    have htrans : ∀ a b c : Donor × ℚ, scoreDescending a b = true →
        scoreDescending b c = true → scoreDescending a c = true := by
      intro a b c h1 h2
      simp only [scoreDescending, decide_eq_true_eq] at h1 h2 ⊢
      exact le_trans h2 h1
    have htotal : ∀ a b : Donor × ℚ,
        (scoreDescending a b || scoreDescending b a) = true := by
      intro a b
      simp only [scoreDescending, Bool.or_eq_true, decide_eq_true_eq]
      exact le_total b.2 a.2
    refine ⟨?_, ?_, ?_⟩
    · have hs := List.sorted_mergeSort htrans htotal
        ((donors.filter (donorQueryFilter getDistance now bloodRequest)).map
          (fun d => (d, calculateMatchScore getDistance now d bloodRequest)))
      have ht := List.Pairwise.sublist
        (List.take_sublist (maxDonors bloodRequest.urgency)
          (List.mergeSort
            ((donors.filter (donorQueryFilter getDistance now bloodRequest)).map
              (fun d => (d, calculateMatchScore getDistance now d bloodRequest)))
            scoreDescending)) hs
      refine List.Pairwise.imp ?_ ht
      intro a b h
      simpa [scoreDescending] using h
    · exact List.length_take_le _ _
    · intro p hp
      have hp1 := List.mem_of_mem_take hp
      rw [(List.mergeSort_perm _ scoreDescending).mem_iff] at hp1
      obtain ⟨d, hd, hpd⟩ := List.mem_map.mp hp1
      have hq := (List.mem_filter.mp hd).2
      simp only [donorQueryFilter, Bool.and_eq_true, decide_eq_true_eq] at hq
      have hp1eq : p.1 = d := by rw [← hpd]
      rw [hp1eq]
      exact ⟨hq.1.2, hq.2, hq.1.1⟩

/-- Witness for C5: a concrete available, never-donated donor at distance
zero from a normal-urgency request is returned with score 91, and the
theorem yields its eligibility facts. -/

theorem findMatchingDonors_sorted_capped_eligible_witness :
    (donorDG, (91 : ℚ)) ∈
        findMatchingDonors zeroDistance (Except.ok [donorDG]) 0 requestNormalR1
    ∧ donorDG.available = true
    ∧ eligibleByLastDonation 0 donorDG = true
    ∧ zeroDistance donorDG.location requestNormalR1.location
        ≤ searchRadiusKm requestNormalR1.urgency * 1000 := by
  have hcond : donorQueryFilter zeroDistance 0 requestNormalR1 donorDG = true := by
    simp [donorQueryFilter, eligibleByLastDonation, searchRadiusKm, zeroDistance,
      donorDG, requestNormalR1]
  have hfil : List.filter (donorQueryFilter zeroDistance 0 requestNormalR1) [donorDG]
      = [donorDG] := by
    simp [List.filter, hcond]
  have hscore : calculateMatchScore zeroDistance 0 donorDG requestNormalR1 = 91 := by
    simp [calculateMatchScore, calculateDistanceScore, calculateBloodTypeScore,
      calculateAvailabilityScore, calculateResponseScore, urgencyMultiplier,
      bloodCompatibility, zeroDistance, donorDG, requestNormalR1]
    norm_num [min_def, max_def]
  have hres : findMatchingDonors zeroDistance (Except.ok [donorDG]) 0 requestNormalR1
      = [(donorDG, 91)] := by
    simp only [findMatchingDonors]
    rw [hfil]
    simp only [List.map]
    rw [hscore, mergeSort_single]
    simp [maxDonors, requestNormalR1]
  have hmem : (donorDG, (91 : ℚ)) ∈
      findMatchingDonors zeroDistance (Except.ok [donorDG]) 0 requestNormalR1 := by
    rw [hres]
    exact List.mem_singleton.mpr rfl
  have h := (findMatchingDonors_sorted_capped_eligible zeroDistance
    (Except.ok [donorDG]) 0 requestNormalR1).2.2 _ hmem
  exact ⟨hmem, h.1, h.2.1, h.2.2⟩

/-! ## Claim C6 -/

/-- C6 counterexample: on a failing geo query the function indeed returns
the empty list, but it does not surface any retrieval error to its
caller: the returned value is identical to that of a successful query
over an empty donor set, so the caller cannot observe the failure. This
refutes the part of the claim stating that a retrieval error is surfaced
to the caller. -/
theorem findMatchingDonors_failure_indistinguishable_cex :
    findMatchingDonors zeroDistance (Except.error "geo query failed") 0 requestCriticalR2 = []
    ∧ findMatchingDonors zeroDistance (Except.error "geo query failed") 0 requestCriticalR2
        = findMatchingDonors zeroDistance (Except.ok []) 0 requestCriticalR2 := by
  constructor <;> simp [findMatchingDonors, mergeSort_nil]

/-- C6 as amended: if the geospatial donor query fails, findMatchingDonors
returns the empty list and never throws past this boundary, and a request
created during the failure is left pending with an empty match list; but
the error is only logged, not surfaced to the caller — the result is
indistinguishable from a successful retrieval that found no donors. -/
theorem findMatchingDonors_failure_empty
    (getDistance : GeoPoint → GeoPoint → ℚ) (msg : String) (now : ℚ)
    (bloodRequest : BloodRequest) (newId : String) (location : GeoPoint)
    (bloodType : BloodType) (urgency : Urgency) :
    findMatchingDonors getDistance (Except.error msg) now bloodRequest = []
    ∧ findMatchingDonors getDistance (Except.error msg) now bloodRequest
        = findMatchingDonors getDistance (Except.ok []) now bloodRequest
    ∧ (createBloodRequest getDistance (Except.error msg) now newId
        location bloodType urgency).status = .pending
    ∧ (createBloodRequest getDistance (Except.error msg) now newId
        location bloodType urgency).matchedDonors = [] := by
  refine ⟨rfl, ?_, rfl, ?_⟩
  · simp [findMatchingDonors, mergeSort_nil]
  · simp [createBloodRequest, findMatchingDonors]

/-! Helper lemmas about the greedy pass and about stability of the sort. -/

theorem firstUnclaimedDonor_not_claimed (claimedDonors : List String)
    (ms : List (Donor × ℚ)) (donorId : String)
    (h : firstUnclaimedDonor claimedDonors ms = some donorId) :
    donorId ∉ claimedDonors := by
  induction ms with
  | nil => simp [firstUnclaimedDonor] at h
  | cons p rest ih =>
    by_cases hc : p.1.id ∈ claimedDonors
    · rw [firstUnclaimedDonor, if_pos hc] at h
      exact ih h
    · rw [firstUnclaimedDonor, if_neg hc] at h
      have : p.1.id = donorId := by
        exact Option.some.inj h
      rw [← this]
      exact hc

theorem greedyAssign_fst_nodup_unclaimed :
    ∀ (l : List RequestMatches) (cd cr : List String),
      ((greedyAssign cd cr l).map Prod.fst).Nodup
      ∧ ∀ x ∈ (greedyAssign cd cr l).map Prod.fst, x ∉ cd := by
  intro l
  induction l with
  | nil =>
    intro cd cr
    simp [greedyAssign]
  | cons rm rest ih =>
    intro cd cr
    by_cases hr : rm.requestId ∈ cr
    · rw [greedyAssign, if_pos hr]
      exact ih cd cr
    · rw [greedyAssign, if_neg hr]
      cases hfu : firstUnclaimedDonor cd rm.matchList with
      | none => exact ih cd cr
      | some donorId =>
        have hnotin := firstUnclaimedDonor_not_claimed cd rm.matchList donorId hfu
        have ihh := ih (donorId :: cd) (rm.requestId :: cr)
        constructor
        · simp only [List.map_cons, List.nodup_cons]
          refine ⟨?_, ihh.1⟩
          intro hmem
          exact (ihh.2 donorId hmem) (List.mem_cons_self donorId cd)
        · intro x hx
          simp only [List.map_cons, List.mem_cons] at hx
          cases hx with
          | inl hxe =>
            rw [hxe]
            exact hnotin
          | inr hxm =>
            intro hxcd
            exact (ihh.2 x hxm) (List.mem_cons_of_mem donorId hxcd)

/-- A stable sort keeps each equivalence class of the comparator in its
original relative order: filtering the sorted list by a predicate whose
members are pairwise related by the comparator gives the same list as
filtering the input. -/
theorem mergeSort_filter_stable {α : Type} (le : α → α → Bool)
    (htrans : ∀ a b c : α, le a b = true → le b c = true → le a c = true)
    (htotal : ∀ a b : α, (le a b || le b a) = true)
    (q : α → Bool) (hq : ∀ a b : α, q a = true → q b = true → le a b = true)
    (l : List α) :
    (l.mergeSort le).filter q = l.filter q := by
  have hsub : (l.filter q).Sublist l := List.filter_sublist l
  have hpair : (l.filter q).Pairwise (fun a b => le a b = true) :=
    List.pairwise_of_forall_mem_list (fun a ha b hb =>
      hq a b (List.mem_filter.mp ha).2 (List.mem_filter.mp hb).2)
  have h1 : (l.filter q).Sublist (l.mergeSort le) :=
    List.sublist_mergeSort htrans htotal hpair hsub
  have h2 : ((l.filter q).filter q).Sublist ((l.mergeSort le).filter q) :=
    h1.filter q
  have h3 : (l.filter q).filter q = l.filter q :=
    List.filter_eq_self.mpr (fun a ha => (List.mem_filter.mp ha).2)
  have h4 : (l.filter q).Sublist ((l.mergeSort le).filter q) := h3 ▸ h2
  have hperm : ((l.mergeSort le).filter q).Perm (l.filter q) :=
    (List.mergeSort_perm l le).filter q
  exact (h4.eq_of_length hperm.length_eq.symm).symm

theorem maxDonors_pos (urgency : Urgency) : 1 ≤ maxDonors urgency := by
  unfold maxDonors
  split
  · norm_num
  · split <;> norm_num

theorem findMatchingDonors_ok_single (getDistance : GeoPoint → GeoPoint → ℚ)
    (now : ℚ) (bloodRequest : BloodRequest) (d : Donor)
    (hcond : donorQueryFilter getDistance now bloodRequest d = true) :
    findMatchingDonors getDistance (Except.ok [d]) now bloodRequest
      = [(d, calculateMatchScore getDistance now d bloodRequest)] := by
  simp only [findMatchingDonors]
  rw [show List.filter (donorQueryFilter getDistance now bloodRequest) [d] = [d] by
    simp [List.filter, hcond]]
  simp only [List.map]
  rw [mergeSort_single]
  exact List.take_of_length_le (by simpa using maxDonors_pos bloodRequest.urgency)

theorem donorDG_passes_filter (bloodRequest : BloodRequest) :
    donorQueryFilter zeroDistance 0 bloodRequest donorDG = true := by
  cases h : bloodRequest.urgency <;>
    simp [donorQueryFilter, eligibleByLastDonation, searchRadiusKm, zeroDistance,
      donorDG, h]

theorem matchScore_dg_critical2 :
    calculateMatchScore zeroDistance 0 donorDG requestCriticalR2 = 100 := by
  simp [calculateMatchScore, calculateDistanceScore, calculateBloodTypeScore,
    calculateAvailabilityScore, calculateResponseScore, urgencyMultiplier,
    bloodCompatibility, zeroDistance, donorDG, requestCriticalR2]
  norm_num [min_def, max_def]

theorem matchScore_dg_critical3 :
    calculateMatchScore zeroDistance 0 donorDG requestCriticalR3 = 100 := by
  simp [calculateMatchScore, calculateDistanceScore, calculateBloodTypeScore,
    calculateAvailabilityScore, calculateResponseScore, urgencyMultiplier,
    bloodCompatibility, zeroDistance, donorDG, requestCriticalR3]
  norm_num [min_def, max_def]

theorem matchScore_dg_normal1 :
    calculateMatchScore zeroDistance 0 donorDG requestNormalR1 = 91 := by
  simp [calculateMatchScore, calculateDistanceScore, calculateBloodTypeScore,
    calculateAvailabilityScore, calculateResponseScore, urgencyMultiplier,
    bloodCompatibility, zeroDistance, donorDG, requestNormalR1]
  norm_num [min_def, max_def]

theorem findMatchingDonors_dg_normal1 :
    findMatchingDonors zeroDistance (Except.ok [donorDG]) 0 requestNormalR1
      = [(donorDG, 91)] := by
  rw [findMatchingDonors_ok_single zeroDistance 0 requestNormalR1 donorDG
    (donorDG_passes_filter requestNormalR1), matchScore_dg_normal1]

theorem findMatchingDonors_dg_critical2 :
    findMatchingDonors zeroDistance (Except.ok [donorDG]) 0 requestCriticalR2
      = [(donorDG, 100)] := by
  rw [findMatchingDonors_ok_single zeroDistance 0 requestCriticalR2 donorDG
    (donorDG_passes_filter requestCriticalR2), matchScore_dg_critical2]

theorem findMatchingDonors_dg_critical3 :
    findMatchingDonors zeroDistance (Except.ok [donorDG]) 0 requestCriticalR3
      = [(donorDG, 100)] := by
  rw [findMatchingDonors_ok_single zeroDistance 0 requestCriticalR3 donorDG
    (donorDG_passes_filter requestCriticalR3), matchScore_dg_critical3]

/-! ## Claim C7 -/

/-- C7: in any batch processed by the assignment optimizer, no donor id
appears in more than one (donorId, requestId) pair of the output. -/
theorem optimizeDonorAssignment_no_donor_double_booked
    (getDistance : GeoPoint → GeoPoint → ℚ)
    (donorStore : Except String (List Donor)) (now : ℚ)
    (requests : List BloodRequest) :
    ((optimizeDonorAssignment getDistance donorStore now requests).map
      Prod.fst).Nodup :=
  (greedyAssign_fst_nodup_unclaimed
    (sortedRequestMatches getDistance donorStore now requests) [] []).1

/-! ## Claim C8 -/

/-- C8: the optimizer processes requests in descending order of urgency
priority (critical 3, urgent 2, normal 1); ties keep their original batch
order (the sort is stable, stated via filters by priority class); and in
the concrete contention scenarios, a critical request beats a normal one
for the shared top candidate even when the normal request comes first in
the batch, while two critical requests are served in batch order. -/
theorem optimizeDonorAssignment_priority_order :
    (∀ (getDistance : GeoPoint → GeoPoint → ℚ)
        (donorStore : Except String (List Donor)) (now : ℚ)
        (requests : List BloodRequest),
      (sortedRequestMatches getDistance donorStore now requests).Pairwise
        (fun a b => b.priority ≤ a.priority))
    ∧ (∀ (getDistance : GeoPoint → GeoPoint → ℚ)
        (donorStore : Except String (List Donor)) (now : ℚ)
        (requests : List BloodRequest) (p : ℤ),
      (sortedRequestMatches getDistance donorStore now requests).filter
          (fun rm => rm.priority = p)
        = (allRequestMatches getDistance donorStore now requests).filter
            (fun rm => rm.priority = p))
    ∧ optimizeDonorAssignment zeroDistance (Except.ok [donorDG]) 0
        [requestNormalR1, requestCriticalR2] = [("dg", "r2")]
    ∧ optimizeDonorAssignment zeroDistance (Except.ok [donorDG]) 0
        [requestCriticalR2, requestCriticalR3] = [("dg", "r2")] := by
  have htrans : ∀ a b c : RequestMatches, priorityDescending a b = true →
      priorityDescending b c = true → priorityDescending a c = true := by
    intro a b c h1 h2
    simp only [priorityDescending, decide_eq_true_eq] at h1 h2 ⊢
    exact le_trans h2 h1
  have htotal : ∀ a b : RequestMatches,
      (priorityDescending a b || priorityDescending b a) = true := by
    intro a b
    simp only [priorityDescending, Bool.or_eq_true, decide_eq_true_eq]
    exact le_total b.priority a.priority
  refine ⟨?_, ?_, ?_, ?_⟩
  · intro getDistance donorStore now requests
    have hs := List.sorted_mergeSort htrans htotal
      (allRequestMatches getDistance donorStore now requests)
    refine List.Pairwise.imp ?_ hs
    intro a b h
    simpa [priorityDescending] using h
  · intro getDistance donorStore now requests p
    refine mergeSort_filter_stable priorityDescending htrans htotal _ ?_ _
    intro a b ha hb
    simp only [decide_eq_true_eq] at ha hb
    simp only [priorityDescending, ha, hb, decide_eq_true_eq]
    exact le_refl p
  · have hall : allRequestMatches zeroDistance (Except.ok [donorDG]) 0
        [requestNormalR1, requestCriticalR2]
        = [⟨"r1", 1, [(donorDG, 91)]⟩, ⟨"r2", 3, [(donorDG, 100)]⟩] := by
      simp only [allRequestMatches, List.map]
      rw [findMatchingDonors_dg_normal1, findMatchingDonors_dg_critical2]
      rfl
    rw [optimizeDonorAssignment, sortedRequestMatches, hall, mergeSort_pair]
    simp [priorityDescending, greedyAssign, firstUnclaimedDonor, donorDG]
  · have hall : allRequestMatches zeroDistance (Except.ok [donorDG]) 0
        [requestCriticalR2, requestCriticalR3]
        = [⟨"r2", 3, [(donorDG, 100)]⟩, ⟨"r3", 3, [(donorDG, 100)]⟩] := by
      simp only [allRequestMatches, List.map]
      rw [findMatchingDonors_dg_critical2, findMatchingDonors_dg_critical3]
      rfl
    rw [optimizeDonorAssignment, sortedRequestMatches, hall, mergeSort_pair]
    simp [priorityDescending, greedyAssign, firstUnclaimedDonor, donorDG]

theorem speedBonus_add (s avg : ℚ) :
    (if avg ≤ 5 then s + 30
     else if avg ≤ 10 then s + 25
     else if avg ≤ 15 then s + 20
     else if avg ≤ 20 then s + 15
     else if avg ≤ 30 then s + 10
     else s) = s + specSpeedBonus avg := by
  unfold specSpeedBonus
  split_ifs <;> ring

/-! ## Claim C9 -/

/-- C9 counterexample: for a donor with a single responded entry answered
in 5 minutes the code scores 1/1 * 70 + 30 = 100, while the formula of
the claim (divide the responded count by the constant 10) gives
1/10 * 70 + 30 = 37. The denominator is the number of recent entries, not
10. -/
theorem calculateResponseScore_rate_denominator_cex :
    calculateResponseScore donorD9 = 100
    ∧ claimResponseScore donorD9 = 37
    ∧ calculateResponseScore donorD9 ≠ claimResponseScore donorD9 := by
  refine ⟨?_, ?_, ?_⟩
  · simp [calculateResponseScore, donorD9, entryResponseTime]
    norm_num [min_def]
  · simp [claimResponseScore, donorD9, specEntryResponseTime, specSpeedBonus]
    norm_num [min_def]
  · simp [calculateResponseScore, claimResponseScore, donorD9, entryResponseTime,
      specEntryResponseTime, specSpeedBonus]
    norm_num [min_def]

/-- C9 as amended: for a donor whose stored response times are all
nonzero, the response-history component equals rate times 70, where rate
is the responded count among the most recent 10 entries divided by the
number of those entries, plus the speed bonus of the mean response time
(missing time counted as 30 minutes), clamped at 100; a donor with no
history scores the neutral 50. The nonzero side condition records that
the JavaScript fallback (responseTime or 30) also maps a stored 0 to 30. -/
theorem calculateResponseScore_eq_spec (donor : Donor)
    (hz : ∀ r ∈ donor.responseHistory, r.responseTime ≠ some 0) :
    calculateResponseScore donor = specResponseScore donor := by
  by_cases he : donor.responseHistory.isEmpty
  · simp [calculateResponseScore, specResponseScore, he]
  · have hmap : (donor.responseHistory.drop (donor.responseHistory.length - 10)).map
        entryResponseTime
        = (donor.responseHistory.drop (donor.responseHistory.length - 10)).map
            specEntryResponseTime := by
      apply List.map_congr_left
      intro r hr
      have hrh : r ∈ donor.responseHistory := by
        have hsub := List.drop_sublist (donor.responseHistory.length - 10)
          donor.responseHistory
        exact hsub.mem hr
      unfold entryResponseTime specEntryResponseTime
      cases his : r.responseTime with
      | none => rfl
      | some t =>
        have ht : t ≠ 0 := by
          intro h0
          apply hz r hrh
          rw [his, h0]
        simp [ht]
    simp only [calculateResponseScore, specResponseScore, he, if_false,
      Bool.false_eq_true]
    rw [hmap, speedBonus_add]

/-- Witness for C9 at the concrete single-entry donor. -/
theorem calculateResponseScore_eq_spec_witness :
    calculateResponseScore donorD9 = specResponseScore donorD9 :=
  calculateResponseScore_eq_spec donorD9 (by
    intro r hr
    simp [donorD9] at hr
    rw [hr]
    simp)

theorem findRequestById_saveRequest_self (store : List BloodRequest)
    (requestId : String) (r : BloodRequest)
    (hfind : findRequestById store requestId = some r) :
    findRequestById (saveRequest store r) requestId = some r := by
  have hid : r.id = requestId := by
    have := List.find?_some hfind
    exact of_decide_eq_true this
  induction store with
  | nil => simp [findRequestById] at hfind
  | cons x xs ih =>
    by_cases hx : x.id = requestId
    · have hx2 : findRequestById (x :: xs) requestId = some x := by
        simp [findRequestById, List.find?_cons_of_pos, hx]
      rw [hfind] at hx2
      have hxr : r = x := Option.some.inj hx2
      subst hxr
      simp [saveRequest, findRequestById, List.find?_cons_of_pos, hx]
    · have hstep : findRequestById (x :: xs) requestId = findRequestById xs requestId := by
        simp [findRequestById, List.find?_cons_of_neg, hx]
      rw [hstep] at hfind
      have hxr : x.id ≠ r.id := by
        rw [hid]
        exact hx
      have : saveRequest (x :: xs) r = x :: saveRequest xs r := by
        simp [saveRequest, hxr]
      rw [this]
      have hxs := ih hfind
      simp [findRequestById, List.find?_cons_of_neg, hx]
      simpa [findRequestById] using hxs

/-! ## Claim C1 -/

/-- C1 counterexample: starting from a pending request with one matched
donor, hospital h1 accepts twice; the second call still emits
request_accepted to the matched donor identity-room, refuting the part of
the claim stating that the second call does not re-send request_accepted
notifications. -/
theorem accept_request_repeat_renotifies_cex :
    SocketEmit.requestAccepted "donor_d1" "r1" "City Hospital" ∈
      (handleAcceptRequest
        (handleAcceptRequest ctxRepeatAccept "h1" "r1").1 "h1" "r1").2 := by
  decide

/-- C1 as amended: re-accepting by a hospital already present in
acceptedHospitals leaves the stored request unchanged (the state changes
only on the first call), but the call is acknowledged as a success and
does re-send request_accepted to every matched donor identity-room. -/
theorem accept_request_second_call_state_noop (ctx : SocketCtx)
    (hospitalId requestId : String) (request : BloodRequest) (hospital : Hospital)
    (hreq : findRequestById ctx.requests requestId = some request)
    (hmem : hospitalId ∈ request.acceptedHospitals)
    (hhosp : findHospitalById ctx.hospitals hospitalId = some hospital) :
    findRequestById (handleAcceptRequest ctx hospitalId requestId).1.requests requestId
      = some request
    ∧ (handleAcceptRequest ctx hospitalId requestId).2
      = request.matchedDonors.map (fun md =>
          SocketEmit.requestAccepted ("donor_" ++ md.donorId) requestId hospital.name)
        ++ [.requestAcceptedSuccess requestId] := by
  have hRun : handleAcceptRequest ctx hospitalId requestId
      = ({ requests := saveRequest ctx.requests request,
           hospitals := saveHospital ctx.hospitals (updateStatistics hospital 15 true) },
         request.matchedDonors.map (fun md =>
           SocketEmit.requestAccepted ("donor_" ++ md.donorId) requestId hospital.name)
         ++ [.requestAcceptedSuccess requestId]) := by
    rw [handleAcceptRequest, hreq]
    simp only [if_pos hmem]
    rw [hhosp]
  rw [hRun]
  exact ⟨findRequestById_saveRequest_self ctx.requests requestId request hreq, rfl⟩

/-- Witness for C1 at the already-accepted concrete request. -/
theorem accept_request_second_call_state_noop_witness :
    findRequestById
        (handleAcceptRequest (SocketCtx.mk [requestAcceptedRA] [hospitalH1])
          "h1" "r1").1.requests "r1"
      = some requestAcceptedRA
    ∧ (handleAcceptRequest (SocketCtx.mk [requestAcceptedRA] [hospitalH1])
        "h1" "r1").2
      = requestAcceptedRA.matchedDonors.map (fun md =>
          SocketEmit.requestAccepted ("donor_" ++ md.donorId) "r1" hospitalH1.name)
        ++ [.requestAcceptedSuccess "r1"] :=
  accept_request_second_call_state_noop
    (SocketCtx.mk [requestAcceptedRA] [hospitalH1]) "h1" "r1"
    requestAcceptedRA hospitalH1 (by decide) (by decide) (by decide)

/-! ## Claim C2 -/

/-- C2: the socket accept_request handler does not validate that the
request is pending or unexpired; with a completed request whose
acceptedHospitals list does not contain the hospital, the handler moves
status from completed to accepted, contradicting the claimed invariant
that no accept leaves completed unchanged only if validation exists (the
HTTP route does validate, the socket handler does not). This theorem
evaluates the handler at the failing input. -/
theorem accept_request_socket_moves_completed_to_accepted :
    (findRequestById ctxCompletedAccept.requests "r9").map BloodRequest.status
      = some .completed
    ∧ (findRequestById
        (handleAcceptRequest ctxCompletedAccept "h1" "r9").1.requests "r9").map
          BloodRequest.status
      = some .accepted := by
  decide

/-! Helper lemmas about the association-list maps. -/

theorem mapGet_mapDelete_ne (m : List (String × String)) (k k2 : String)
    (h : k2 ≠ k) :
    mapGet (mapDelete m k) k2 = mapGet m k2 := by
  induction m with
  | nil => rfl
  | cons e rest ih =>
    simp only [mapDelete, ne_eq, decide_not] at ih ⊢
    rw [List.filter_cons]
    by_cases he : e.1 = k
    · have hk : ¬ (k = k2) := fun hh => h hh.symm
      simp [he, mapGet, hk, ih]
    · by_cases he2 : e.1 = k2
      · simp [mapGet, he, he2, h]
      · simp [mapGet, he, he2, ih]

theorem mapGet_mapSet_self (m : List (String × String)) (k v : String) :
    mapGet (mapSet m k v) k = some v := by
  simp [mapSet, mapGet]

theorem mapGet_mapSet_ne (m : List (String × String)) (k v k2 : String)
    (h : k2 ≠ k) :
    mapGet (mapSet m k v) k2 = mapGet m k2 := by
  have h2 := mapGet_mapDelete_ne m k k2 h
  have hk : k ≠ k2 := fun hh => h hh.symm
  simp only [mapDelete, ne_eq, decide_not] at h2
  simp [mapSet, mapGet, hk, h2]

theorem mapGet_mapDelete_self (m : List (String × String)) (k : String) :
    mapGet (mapDelete m k) k = none := by
  induction m with
  | nil => rfl
  | cons e rest ih =>
    simp only [mapDelete, ne_eq, decide_not] at ih ⊢
    rw [List.filter_cons]
    by_cases he : e.1 = k
    · simp [he, mapGet, ih]
    · simp [mapGet, he, ih]

theorem liveHandles_filter_other (s : List (ActorRole × String × String))
    (role : ActorRole) (id : String) (t : ActorRole × String × String)
    (ht : ¬ (t.1 = role ∧ t.2.1 = id)) :
    (s.filter (fun e => e ≠ t)).filterMap
        (fun e => if e.1 = role ∧ e.2.1 = id then some e.2.2 else none)
      = s.filterMap
          (fun e => if e.1 = role ∧ e.2.1 = id then some e.2.2 else none) := by
  induction s with
  | nil => rfl
  | cons e rest ih =>
    simp only [ne_eq, decide_not] at ih
    rw [List.filter_cons]
    by_cases he : e = t
    · subst he
      have hm : ¬ (e.1 = role ∧ e.2.1 = id) := ht
      simp [List.filterMap_cons, hm, ih]
    · by_cases hm : e.1 = role ∧ e.2.1 = id
      · simp [List.filterMap_cons, he, hm, ih]
      · simp [List.filterMap_cons, he, hm, ih]

/-! Invariant lemmas for the registry run. -/

theorem runRegistry_entry_mostRecent (role : ActorRole) (id : String) :
    ∀ (events : List ConnEvent) (s : RegistryState) (acc : Option String),
      (∀ h, mapGet (identityMap role s) id = some h → acc = some h) →
      ∀ h, mapGet (identityMap role (runRegistry s events)) id = some h →
        mostRecentConnectAux role id acc events = some h := by
  intro events
  induction events with
  | nil =>
    intro s acc hinv h hget
    rw [runRegistry] at hget
    exact hinv h hget
  | cons e rest ih =>
    intro s acc hinv h hget
    rw [runRegistry] at hget
    cases e with
    | connected r i hh =>
      rw [mostRecentConnectAux]
      refine ih (stepRegistry s (.connected r i hh)) _ ?_ h hget
      intro h2 hget2
      by_cases hri : r = role ∧ i = id
      · rw [if_pos hri]
        obtain ⟨hr, hi⟩ := hri
        subst hr
        subst hi
        cases r <;>
          simp only [stepRegistry, identityMap] at hget2 <;>
          rw [mapGet_mapSet_self] at hget2 <;>
          exact hget2
      · rw [if_neg hri]
        apply hinv
        rw [← hget2]
        by_cases hr : r = role
        · subst hr
          have hi : i ≠ id := fun hi => hri ⟨rfl, hi⟩
          cases r <;>
            simp only [stepRegistry, identityMap] <;>
            rw [mapGet_mapSet_ne _ _ _ _ (fun hh => hi hh.symm)]
        · cases r <;> cases role <;>
            simp only [stepRegistry, identityMap] <;>
            first
            | rfl
            | exact absurd rfl hr
    | disconnected r i hh =>
      rw [mostRecentConnectAux]
      refine ih (stepRegistry s (.disconnected r i hh)) _ ?_ h hget
      intro h2 hget2
      apply hinv
      rw [← hget2]
      by_cases hr : r = role
      · subst hr
        by_cases hi : i = id
        · subst hi
          exfalso
          cases r <;>
            simp only [stepRegistry, identityMap] at hget2 <;>
            rw [mapGet_mapDelete_self] at hget2 <;>
            exact Option.noConfusion hget2
        · cases r <;>
            simp only [stepRegistry, identityMap] <;>
            rw [mapGet_mapDelete_ne _ _ _ (fun hh => hi hh.symm)]
      · cases r <;> cases role <;>
          simp only [stepRegistry, identityMap] <;>
          first
          | rfl
          | exact absurd rfl hr

theorem runRegistry_entry_implies_live (role : ActorRole) (id : String) :
    ∀ (events : List ConnEvent) (s : RegistryState),
      (mapGet (identityMap role s) id ≠ none → liveHandles s role id ≠ []) →
      mapGet (identityMap role (runRegistry s events)) id ≠ none →
        liveHandles (runRegistry s events) role id ≠ [] := by
  intro events
  induction events with
  | nil =>
    intro s hinv hget
    rw [runRegistry] at hget ⊢
    exact hinv hget
  | cons e rest ih =>
    intro s hinv hget
    rw [runRegistry] at hget ⊢
    refine ih (stepRegistry s e) ?_ hget
    intro hget2
    cases e with
    | connected r i hh =>
      by_cases hri : r = role ∧ i = id
      · obtain ⟨hr, hi⟩ := hri
        subst hr
        subst hi
        cases r <;>
          · simp only [stepRegistry, liveHandles, List.filterMap]
            intro hcontra
            simp at hcontra
      · have hlift : liveHandles (stepRegistry s (.connected r i hh)) role id
            = liveHandles s role id := by
          cases r <;>
            · simp only [stepRegistry, liveHandles, List.filterMap]
              rw [if_neg]
              intro hc
              exact hri (by simpa using hc)
        rw [hlift]
        apply hinv
        intro hnone
        apply hget2
        rw [← hnone]
        by_cases hr : r = role
        · subst hr
          have hi : i ≠ id := fun hi => hri ⟨rfl, hi⟩
          cases r <;>
            simp only [stepRegistry, identityMap] <;>
            rw [mapGet_mapSet_ne _ _ _ _ (fun hhx => hi hhx.symm)]
        · cases r <;> cases role <;>
            simp only [stepRegistry, identityMap] <;>
            first
            | rfl
            | exact absurd rfl hr
    | disconnected r i hh =>
      by_cases hri : r = role ∧ i = id
      · obtain ⟨hr, hi⟩ := hri
        subst hr
        subst hi
        exfalso
        apply hget2
        cases r <;>
          simp only [stepRegistry, identityMap] <;>
          exact mapGet_mapDelete_self _ _
      · have hlift : liveHandles (stepRegistry s (.disconnected r i hh)) role id
            = liveHandles s role id := by
          cases r <;>
            · simp only [stepRegistry, liveHandles]
              exact liveHandles_filter_other s.liveSockets role id _
                (by simpa using hri)
        rw [hlift]
        apply hinv
        intro hnone
        apply hget2
        rw [← hnone]
        by_cases hr : r = role
        · subst hr
          have hi : i ≠ id := fun hi => hri ⟨rfl, hi⟩
          cases r <;>
            simp only [stepRegistry, identityMap] <;>
            rw [mapGet_mapDelete_ne _ _ _ (fun hhx => hi hhx.symm)]
        · cases r <;> cases role <;>
            simp only [stepRegistry, identityMap] <;>
            first
            | rfl
            | exact absurd rfl hr

/-! ## Claim C10 -/

/-- C10 counterexample: after connect(d, s1), connect(d, s2),
disconnect(d, s1) — the stale socket s1 closing after the reconnect — the
identity d still has the live connection s2, yet the identity map has no
entry for d, because handleDisconnection deletes by identity regardless
of which socket closed. The claim requires the entry to be s2. -/
theorem registry_stale_disconnect_cex :
    liveHandles (runRegistry initialRegistry staleDisconnectTrace) .donor "d" = ["s2"]
    ∧ mapGet (identityMap .donor (runRegistry initialRegistry staleDisconnectTrace)) "d"
        = none := by
  decide

/-- C10 as amended: after any sequence of connect and disconnect events,
every entry of an identity map holds the handle of the most recent
connection of that identity, and an identity with no live connection has
no entry; but an identity with a live connection may have no entry,
because the disconnect of a superseded socket after a reconnect deletes
the entry of the reconnected identity. -/
theorem registry_entry_most_recent_and_no_ghost (events : List ConnEvent)
    (role : ActorRole) (id : String) :
    (∀ h, mapGet (identityMap role (runRegistry initialRegistry events)) id = some h →
      mostRecentConnect role id events = some h)
    ∧ (liveHandles (runRegistry initialRegistry events) role id = [] →
      mapGet (identityMap role (runRegistry initialRegistry events)) id = none) := by
  constructor
  · intro h hget
    refine runRegistry_entry_mostRecent role id events initialRegistry none ?_ h hget
    intro h2 hget2
    cases role <;> simp [identityMap, initialRegistry, mapGet] at hget2
  · intro hlive
    by_cases hget : mapGet (identityMap role (runRegistry initialRegistry events)) id
        = none
    · exact hget
    · exfalso
      refine runRegistry_entry_implies_live role id events initialRegistry ?_ hget hlive
      intro hcontra
      exfalso
      apply hcontra
      cases role <;> simp [identityMap, initialRegistry, mapGet]

/-- Witness for C10 at concrete traces: a single connect yields an entry
equal to the most recent connect, and a connect followed by its own
disconnect leaves no entry. -/
theorem registry_entry_most_recent_and_no_ghost_witness :
    mostRecentConnect .donor "d" [.connected .donor "d" "s1"] = some "s1"
    ∧ mapGet (identityMap .donor (runRegistry initialRegistry
        [.connected .donor "d" "s1", .disconnected .donor "d" "s1"])) "d" = none :=
  ⟨(registry_entry_most_recent_and_no_ghost
      [.connected .donor "d" "s1"] .donor "d").1 "s1" (by decide),
   (registry_entry_most_recent_and_no_ghost
      [.connected .donor "d" "s1", .disconnected .donor "d" "s1"] .donor "d").2
      (by decide)⟩

end OneBlood

